import Mathlib

/-! # docker-mongodb-replSet: health reporter, connection lifecycle and update routes

A shallow embedding of `src/app/utils/health.js`, `src/app/config/db_config.js`,
`src/app/index.js` and the `PUT` handlers of the three route files.

JavaScript values are embedded as the inductive `JSVal`.  Values the driver returns or
throws are arbitrary `JSVal`s; `await` on a driver call is embedded as an
`Except JSVal JSVal` outcome (`.ok v` for a resolved promise, `.error e` for a rejected
one).  Effects (driver calls, response writes, console output, process exit) are recorded
by explicit state passing.
-/

/-! ## JavaScript values -/

/-- JavaScript values: the JSON-shaped values, `undefined`, and `Error` objects.  An `obj`
is an ordinary object with the listed own data properties and `Object.prototype` as its
prototype.  Numbers are the integers a double holds exactly (magnitude below 2^53), whose
string conversion is the decimal numeral; fractions, `NaN`, functions, symbols and bigints
are not represented. -/
inductive JSVal where
  | undefined
  | null
  | bool (b : Bool)
  | num (n : Int)
  | str (s : String)
  | err (name message : String)
  | arr (xs : List JSVal)
  | obj (fields : List (String × JSVal))

namespace JSVal

/-- `new Error(message)`. -/
def newError (message : String) : JSVal := err "Error" message

/-- The `TypeError` raised by the engine; the message text is engine specific. -/
def typeError (message : String) : JSVal := err "TypeError" message

/-- Whether a value is `undefined` or `null`. -/
def isNullish : JSVal → Bool
  | undefined => true
  | null => true
  | _ => false

mutual
/-- The string conversion used by template literals, `${v}`.  For an object the engine
looks up `toString` and then `valueOf`: an own `toString` property holds a value that is
not callable (there are no function values here), and `valueOf`, own or inherited, does not
yield a primitive either, so the conversion throws a `TypeError`; without an own `toString`
the inherited one yields `[object Object]`.  An array converts by `join`, an `Error` by
`Error.prototype.toString`. -/
def toStr : JSVal → Except JSVal String
  | undefined => .ok "undefined"
  | null => .ok "null"
  | bool b => .ok (if b then "true" else "false")
  | num n => .ok (toString n)
  | str s => .ok s
  | err n m => .ok (if n = "" then m else if m = "" then n else n ++ ": " ++ m)
  | arr xs => joinStr xs
  | obj fields =>
    match fields.lookup "toString" with
    | some _ => .error (typeError "Cannot convert object to primitive value")
    | none => .ok "[object Object]"
termination_by structural v => v
/-- The `Array.prototype.join` with separator `,` behind the string conversion of arrays:
`undefined` and `null` elements render as the empty string, every other element by its
string conversion, in order; the first conversion that throws ends the loop. -/
def joinStr : List JSVal → Except JSVal String
  | [] => .ok ""
  | x :: rest =>
    match (if isNullish x then Except.ok "" else toStr x) with
    | .error e => .error e
    | .ok first =>
      match joinStr rest with
      | .error e => .error e
      | .ok others =>
        .ok (first ++ (match rest with
          | [] => ""
          | _ :: _ => ",") ++ others)
termination_by structural xs => xs
end

/-- The boolean coercion behind `!v`. -/
def truthy : JSVal → Bool
  | undefined => false
  | null => false
  | bool b => b
  | num n => n != 0
  | str s => s != ""
  | err _ _ => true
  | arr _ => true
  | obj _ => true

/-- The comparison `v === n` against a number literal: true only for that very number. -/
def strictEqNum (v : JSVal) (n : Int) : Bool :=
  match v with
  | num m => m == n
  | _ => false

/-- The property read `v.key`.  Reading a property of `undefined` or `null` throws a
`TypeError`; an object yields the property or `undefined`; an `Error` carries `name` and
`message`; an array carries `length`.  Index properties, the `length` of strings and the
methods of the built-in prototypes are not represented: the embedded code reads none of
them through this function. -/
def getProp (v : JSVal) (key : String) : Except JSVal JSVal :=
  match v with
  | undefined =>
    .error (typeError ("Cannot read properties of undefined (reading \x27" ++ key ++ "\x27)"))
  | null =>
    .error (typeError ("Cannot read properties of null (reading \x27" ++ key ++ "\x27)"))
  | obj fields => .ok ((fields.lookup key).getD undefined)
  | err n m =>
    if key = "message" then .ok (str m)
    else if key = "name" then .ok (str n)
    else .ok undefined
  | arr xs => if key = "length" then .ok (num xs.length) else .ok undefined
  | _ => .ok undefined

/-- The optional chain `v?.key`: `undefined` when `v` is `undefined` or `null`. -/
def optChain (v : JSVal) (key : String) : Except JSVal JSVal :=
  match v with
  | undefined => .ok undefined
  | null => .ok undefined
  | _ => getProp v key

/-- The loop of `Array.prototype.filter`: the callback runs on each element in order and
the first exception it throws ends the loop. -/
def filterLoop (cb : JSVal → Except JSVal Bool) : List JSVal → Except JSVal (List JSVal)
  | [] => .ok []
  | x :: rest =>
    match cb x with
    | .error e => .error e
    | .ok keep =>
      match filterLoop cb rest with
      | .error e => .error e
      | .ok kept => .ok (if keep then x :: kept else kept)

/-- The loop of `Array.prototype.map`. -/
def mapLoop (cb : JSVal → Except JSVal JSVal) : List JSVal → Except JSVal (List JSVal)
  | [] => .ok []
  | x :: rest =>
    match cb x with
    | .error e => .error e
    | .ok y =>
      match mapLoop cb rest with
      | .error e => .error e
      | .ok ys => .ok (y :: ys)

/-- The call `v.filter(cb)`: only arrays have a `filter` method. -/
def callFilter (path : String) (v : JSVal) (cb : JSVal → Except JSVal Bool) :
    Except JSVal (List JSVal) :=
  match v with
  | arr xs => filterLoop cb xs
  | undefined =>
    .error (typeError ("Cannot read properties of undefined (reading \x27filter\x27)"))
  | null =>
    .error (typeError ("Cannot read properties of null (reading \x27filter\x27)"))
  | _ => .error (typeError (path ++ ".filter is not a function"))

/-- The call `v.map(cb)`: only arrays have a `map` method. -/
def callMap (path : String) (v : JSVal) (cb : JSVal → Except JSVal JSVal) :
    Except JSVal (List JSVal) :=
  match v with
  | arr xs => mapLoop cb xs
  | undefined =>
    .error (typeError ("Cannot read properties of undefined (reading \x27map\x27)"))
  | null =>
    .error (typeError ("Cannot read properties of null (reading \x27map\x27)"))
  | _ => .error (typeError (path ++ ".map is not a function"))

end JSVal

open JSVal

/-! ## `src/app/utils/health.js` -/

/-- The two driver operations `healthCheck` can issue. -/
inductive DriverCall where
  | ping
  | replSetGetStatus
  deriving DecidableEq, Repr

/-- The part of the driver `healthCheck` observes: `mongoose.connection.readyState`
(0 disconnected, 1 connected, 2 connecting, 3 disconnecting, 99 uninitialized), the outcome
of `await mongoose.connection.db.admin().ping()` and the outcome of
`await admin.replSetGetStatus()`, were they evaluated. -/
structure Driver where
  readyState : Nat
  ping : Except JSVal JSVal
  replSetGetStatus : Except JSVal JSVal

/-- The express response object: headers, the status code set by `res.status`, and the
bodies handed to `res.send`, each with the status code in force when it was sent.  A body
built by `JSON.stringify(value, null, 2)` is recorded as `value`. -/
structure Res where
  headers : List (String × String)
  statusCode : Nat
  sent : List (Nat × JSVal)

namespace Res

/-- A response on which nothing has been written yet. -/
def fresh : Res := ⟨[], 200, []⟩

/-- `res.setHeader(name, value)`. -/
def setHeader (res : Res) (name value : String) : Res :=
  { res with headers := res.headers ++ [(name, value)] }

/-- `res.status(code)`. -/
def status (res : Res) (code : Nat) : Res :=
  { res with statusCode := code }

/-- `res.send(body)`. -/
def send (res : Res) (body : JSVal) : Res :=
  { res with sent := res.sent ++ [(res.statusCode, body)] }

end Res

/-- The filter callback `(member) => member.health === 1` (health.js line 22). -/
def isHealthyMember (member : JSVal) : Except JSVal Bool :=
  match getProp member "health" with
  | .error e => .error e
  | .ok health => .ok (strictEqNum health 1)

/-- The map callback of health.js lines 35-40.  The template literal around
`member.uptime` throws when the string conversion of the uptime throws. -/
def nodeSummary (member : JSVal) : Except JSVal JSVal := do
  let name ← getProp member "name"
  let state ← getProp member "stateStr"
  let health ← getProp member "health"
  let uptime ← getProp member "uptime"
  let uptimeText ← toStr uptime
  return obj [
    ("name", name),
    ("state", state),
    ("health", str (if strictEqNum health 1 then "healthy" else "unhealthy")),
    ("uptime", str (uptimeText ++ "s"))]

/-- Lines 22-42 of health.js: from the value `result` of `replSetGetStatus` to the
`response` object, or to the exception thrown on the way.  The argument `now` is
`new Date().toLocaleString()`. -/
def healthCheckReport (result : JSVal) (now : String) : Except JSVal JSVal := do
  let members ← getProp result "members"
  let healthyNodes ← callFilter "result.members" members isHealthyMember
  if healthyNodes.length = 0 then
    throw (newError "No healthy nodes in the replica set")
  let replicaSet ← getProp result "set"
  let healthyText ← toStr (num healthyNodes.length)
  let members ← getProp result "members"
  let total ← getProp members "length"
  let totalText ← toStr total
  let members ← getProp result "members"
  let nodes ← callMap "result.members" members nodeSummary
  return obj [
    ("status", str "success"),
    ("message", str "Health check passed"),
    ("timestamp", str now),
    ("database", obj [
      ("replicaSet", replicaSet),
      ("nodesHealth", str (healthyText ++ "/" ++ totalText)),
      ("nodes", arr nodes)])]

/-- The `try` block of `healthCheck` up to the `response` object (lines 8-42): the driver
calls issued, in order, and the `response` object or the exception thrown. -/
def healthCheckTry (d : Driver) (now : String) : List DriverCall × Except JSVal JSVal :=
  if d.readyState ≠ 1 then
    ([], .error (newError "Database connection is not ready"))
  else
    match d.ping with
    | .error e => ([.ping], .error e)
    | .ok pingResult =>
      match optChain pingResult "ok" with
      | .error e => ([.ping], .error e)
      | .ok ok =>
        if !(truthy ok) then
          ([.ping], .error (newError "Database ping failed"))
        else
          match d.replSetGetStatus with
          | .error e => ([.ping, .replSetGetStatus], .error e)
          | .ok result => ([.ping, .replSetGetStatus], healthCheckReport result now)

/-- One run of `healthCheck`: the response object afterwards, the driver calls issued, and
whether the returned promise resolved (`.ok`) or rejected (`.error`). -/
structure HealthRun where
  res : Res
  calls : List DriverCall
  completion : Except JSVal Unit

/-- The function `healthCheck` of health.js.  The `catch` block reads `error.message`,
which itself throws when the caught value is `undefined` or `null`. -/
def healthCheck (d : Driver) (now : String) (res : Res) : HealthRun :=
  let res := res.setHeader "Content-Type" "application/json"
  match healthCheckTry d now with
  | (calls, .ok response) => ⟨(res.status 200).send response, calls, .ok ()⟩
  | (calls, .error error) =>
    match getProp error "message" with
    | .error e => ⟨res, calls, .error e⟩
    | .ok message =>
      ⟨(res.status 500).send (obj [
        ("status", str "error"),
        ("message", message),
        ("timestamp", str now)]), calls, .ok ()⟩

/-- The members `[{health:1},{health:1},{health:0}]`. -/
def sampleMembers : List JSVal :=
  [obj [("health", num 1)], obj [("health", num 1)], obj [("health", num 0)]]

/-- A connected driver whose ping answers `{ok: 1}` and whose status is `status`. -/
def connectedDriver (status : JSVal) : Driver :=
  ⟨1, .ok (obj [("ok", num 1)]), .ok status⟩

/-! ### Reading the status response as data -/

/-- The value of `v.key` for a value that is neither `undefined` nor `null`. -/
def propOf (v : JSVal) (key : String) : JSVal :=
  match getProp v key with
  | .ok x => x
  | .error _ => undefined

/-- Whether the health flag of a member is the number 1. -/
def healthFlagIsOne (member : JSVal) : Bool :=
  strictEqNum (propOf member "health") 1

/-- Whether a ping result counts as success: `pingResult?.ok` is truthy. -/
def pingSucceeded (pingResult : JSVal) : Bool :=
  match optChain pingResult "ok" with
  | .ok ok => truthy ok
  | .error _ => false

/-- An object that is not callable under the key `toString`: its string conversion
throws. -/
def unprintable : JSVal := obj [("toString", num 1)]

/-- The success body for replica set `replicaSet`, ratio text `ratio` and node list
`nodes`. -/
def successBody (now : String) (replicaSet : JSVal) (ratio : String) (nodes : List JSVal) :
    JSVal :=
  obj [
    ("status", str "success"),
    ("message", str "Health check passed"),
    ("timestamp", str now),
    ("database", obj [
      ("replicaSet", replicaSet),
      ("nodesHealth", str ratio),
      ("nodes", arr nodes)])]

/-! ## `src/app/config/db_config.js` and `src/app/index.js` -/

/-- The observable effects of the embedded functions, in the order they happen: listener
registrations, driver calls, `console.log(...args)` and `console.error(...args)` with the
argument values, `app.listen` and `process.exit`. -/
inductive ProcEvent where
  | on (emitter event : String)
  | driverConnect (uri : String)
  | driverDisconnect
  | log (args : List JSVal)
  | logError (args : List JSVal)
  | listen (port : Nat)
  | exit (code : Nat)

/-- How a piece of asynchronous code ends: its promise resolves, its promise rejects with
a thrown value, or `process.exit(code)` ends the process, after which nothing runs. -/
inductive Completion where
  | returned
  | threw (e : JSVal)
  | exited (code : Nat)

/-- The events recorded so far and how the code ended. -/
structure ProcRun where
  events : List ProcEvent
  completion : Completion

/-- The connection string set by the constructor of `DatabaseConnection`. -/
def uri : String := "mongodb://mongo1:27017,mongo2:27018,mongo3:27019/demo?replicaSet=rs0"

/-- The port of index.js. -/
def port : Nat := 3000

/-- `DatabaseConnection.setupListeners`: four listeners on `mongoose.connection` and the
`SIGINT` listener on `process`.  The trace holds the registrations; the lines the four
connection listeners print when the driver later fires its events are not part of it. -/
def setupListeners (events : List ProcEvent) : List ProcEvent :=
  events ++ [
    .on "mongoose.connection" "connecting",
    .on "mongoose.connection" "connected",
    .on "mongoose.connection" "error",
    .on "mongoose.connection" "disconnected",
    .on "process" "SIGINT"]

/-- `DatabaseConnection.connect`; `driverConnect` is the outcome of
`await mongoose.connect(this.uri, this.options)`.  In the `catch` block the template
literal around `error` is evaluated first: when the string conversion of the caught value
throws, neither `console.error` nor `process.exit(1)` is reached and the promise
rejects. -/
def connect (driverConnect : Except JSVal Unit) (events : List ProcEvent) : ProcRun :=
  let events := setupListeners events
  let events := events ++ [.driverConnect uri]
  match driverConnect with
  | .ok _ => ⟨events, .returned⟩
  | .error error =>
    match toStr error with
    | .error thrown => ⟨events, .threw thrown⟩
    | .ok text =>
      let events := events ++ [.logError [str ("MongoDB connection error: " ++ text)]]
      ⟨events ++ [.exit 1], .exited 1⟩

/-- `DatabaseConnection.disconnect`; `driverDisconnect` is the outcome of
`await mongoose.disconnect()`.  When the string conversion of the caught value throws, the
`catch` block throws and the promise rejects. -/
def disconnect (driverDisconnect : Except JSVal Unit) (events : List ProcEvent) : ProcRun :=
  let events := events ++ [.driverDisconnect]
  match driverDisconnect with
  | .ok _ => ⟨events ++ [.log [str "MongoDB disconnected"]], .returned⟩
  | .error error =>
    match toStr error with
    | .error thrown => ⟨events, .threw thrown⟩
    | .ok text =>
      ⟨events ++ [.logError [str ("MongoDB disconnect error: " ++ text)]], .returned⟩

/-- The `SIGINT` listener registered by `setupListeners` (db_config.js lines 31-34):
`await this.disconnect()` and then `process.exit(0)`. -/
def sigintListener (driverDisconnect : Except JSVal Unit) (events : List ProcEvent) :
    ProcRun :=
  match disconnect driverDisconnect events with
  | ⟨events, .returned⟩ => ⟨events ++ [.exit 0], .exited 0⟩
  | ⟨events, .threw e⟩ => ⟨events, .threw e⟩
  | ⟨events, .exited code⟩ => ⟨events, .exited code⟩

/-- Whether an event is the registration of a `SIGINT` listener on `process`. -/
def isSigintRegistration : ProcEvent → Bool
  | .on emitter event => emitter == "process" && event == "SIGINT"
  | _ => false

/-- Whether a `SIGINT` listener has been registered on `process`. -/
def sigintInstalled (events : List ProcEvent) : Bool :=
  events.any isSigintRegistration

/-- Receipt of `SIGINT`: the registered listener runs; without one the runtime ends the
process at once (reported as exit code 130).  `connect` runs once per process, so at most
one listener is registered. -/
def receiveSigint (driverDisconnect : Except JSVal Unit) (events : List ProcEvent) :
    ProcRun :=
  if sigintInstalled events then sigintListener driverDisconnect events
  else ⟨events ++ [.exit 130], .exited 130⟩

/-- `startServer` of index.js, run at process start. -/
def startServer (driverConnect : Except JSVal Unit) : ProcRun :=
  match connect driverConnect [] with
  | ⟨events, .returned⟩ =>
    ⟨events ++ [.listen port, .log [str ("Server running on port " ++ toString port)]],
      .returned⟩
  | ⟨events, .threw error⟩ =>
    let events := events ++ [.logError [str "Failed to start server:", error]]
    ⟨events ++ [.exit 1], .exited 1⟩
  | ⟨events, .exited code⟩ => ⟨events, .exited code⟩

/-! ## The `PUT` handlers of `users.js`, `posts.js` and `likes.js` -/

/-- The three entity kinds. -/
inductive EntityKind where
  | users
  | posts
  | likes
  deriving DecidableEq, Repr

/-- The text of the 404 answer of each route file. -/
def notFoundText : EntityKind → String
  | .users => "User not found"
  | .posts => "Post not found"
  | .likes => "Like not found"

/-- The express request as the handlers read it: `req.params` and `req.body`. -/
structure Req where
  params : JSVal
  body : JSVal

/-- The operation `Model.findByIdAndUpdate(id, update)` of the Mongoose model of an entity
kind: from the two arguments to the value the returned promise resolves with, or the value
it rejects with.  Mongoose is not part of the repository, so the operation is a
parameter. -/
abbrev FindByIdAndUpdate := JSVal → JSVal → Except JSVal JSVal

/-- `res.json(body)`. -/
def Res.json (res : Res) (body : JSVal) : Res :=
  { res with
    headers := res.headers ++ [("Content-Type", "application/json")]
    sent := res.sent ++ [(res.statusCode, body)] }

/-- The `PUT /<kind>/:id` handler (lines 41-51 of each route file).  The model is called
as `findByIdAndUpdate(req.params)`: the first argument is the whole `params` object and
the second argument is absent, hence `undefined`. -/
def putHandler (kind : EntityKind) (findByIdAndUpdate : FindByIdAndUpdate) (req : Req)
    (res : Res) : Res :=
  match findByIdAndUpdate req.params undefined with
  | .error error => (res.status 500).json error
  | .ok entity =>
    if !(truthy entity) then (res.status 404).json (str (notFoundText kind))
    else (res.status 200).json entity

/-! ## Lemmas on the value operations -/

theorem toStr_arr (xs : List JSVal) : toStr (arr xs) = joinStr xs := by
  simp only [toStr]

theorem toStr_obj (fields : List (String × JSVal)) :
    toStr (obj fields) =
      match fields.lookup "toString" with
      | some _ => .error (typeError "Cannot convert object to primitive value")
      | none => .ok "[object Object]" := by
  simp only [toStr]

theorem joinStr_cons (x : JSVal) (rest : List JSVal) :
    joinStr (x :: rest) =
      match (if isNullish x then Except.ok "" else toStr x) with
      | .error e => .error e
      | .ok first =>
        match joinStr rest with
        | .error e => .error e
        | .ok others =>
          .ok (first ++ (match rest with
            | [] => ""
            | _ :: _ => ",") ++ others) := by
  simp only [joinStr]

/-- Every exception the string conversion throws is an `Error` object. -/
theorem toStr_error_is_err (v e : JSVal) (h : toStr v = .error e) : ∃ n m, e = err n m := by
  refine @JSVal.rec
    (fun v => ∀ e, toStr v = .error e → ∃ n m, e = err n m)
    (fun xs => ∀ e, joinStr xs = .error e → ∃ n m, e = err n m)
    (fun _ => True) (fun _ => True)
    ?_ ?_ ?_ ?_ ?_ ?_ ?_ ?_ ?_ ?_ ?_ ?_ ?_ v e h
  · intro e h; simp [toStr] at h
  · intro e h; simp [toStr] at h
  · intro b e h; simp [toStr] at h
  · intro n e h; simp [toStr] at h
  · intro s e h; simp [toStr] at h
  · intro n m e h; simp [toStr] at h
  · intro xs ih e h
    rw [toStr_arr] at h
    exact ih e h
  · intro fields _ e h
    rw [toStr_obj] at h
    split at h
    · exact ⟨_, _, (Except.error.inj h).symm⟩
    · cases h
  · intro e h; simp [joinStr] at h
  · intro x rest ihx ihrest e h
    rw [joinStr_cons] at h
    cases hx : (if isNullish x then Except.ok "" else toStr x) with
    | error e1 =>
      rw [hx] at h
      cases h
      have hx2 : toStr x = .error e := by
        split_ifs at hx
        exact hx
      exact ihx e hx2
    | ok first =>
      rw [hx] at h
      cases hr : joinStr rest with
      | error e2 =>
        rw [hr] at h
        cases h
        exact ihrest e hr
      | ok others =>
        rw [hr] at h
        cases h
  · trivial
  · intros; trivial
  · intros; trivial

theorem toStr_num_natCast (n : Nat) : toStr (num (n : Int)) = .ok (toString n) := by
  simp only [toStr]
  rfl

theorem toStr_err (n m : String) : ∃ s, toStr (err n m) = .ok s := by
  simp [toStr]

theorem getProp_of_not_nullish (v : JSVal) (key : String) (h : isNullish v = false) :
    getProp v key = .ok (propOf v key) := by
  cases v <;> simp [isNullish] at h <;> simp only [propOf, getProp] <;> split_ifs <;> rfl

theorem not_nullish_of_getProp {v : JSVal} {key : String} {x : JSVal}
    (h : getProp v key = .ok x) : isNullish v = false := by
  cases v <;> simp [getProp] at h <;> rfl

theorem getProp_error_is_err {v : JSVal} {key : String} {e : JSVal}
    (h : getProp v key = .error e) : ∃ n m, e = err n m := by
  cases v <;> simp only [getProp] at h
  case undefined => exact ⟨_, _, (Except.error.inj h).symm⟩
  case null => exact ⟨_, _, (Except.error.inj h).symm⟩
  case err => split_ifs at h
  case arr => split_ifs at h
  all_goals cases h

theorem getProp_err_message (n m : String) : getProp (err n m) "message" = .ok (str m) := by
  simp [getProp]

theorem optChain_error_is_err {v : JSVal} {key : String} {e : JSVal}
    (h : optChain v key = .error e) : ∃ n m, e = err n m := by
  cases v <;> simp only [optChain] at h <;>
    first
    | cases h
    | exact getProp_error_is_err h

theorem isHealthyMember_of_not_nullish (m : JSVal) (h : isNullish m = false) :
    isHealthyMember m = .ok (healthFlagIsOne m) := by
  simp [isHealthyMember, healthFlagIsOne, getProp_of_not_nullish m "health" h]

/-- The map callback on a document: it throws exactly when the string conversion of the
uptime throws. -/
theorem nodeSummary_of_not_nullish (m : JSVal) (h : isNullish m = false) :
    nodeSummary m =
      match toStr (propOf m "uptime") with
      | .error e => .error e
      | .ok uptime => .ok (obj [
          ("name", propOf m "name"),
          ("state", propOf m "stateStr"),
          ("health", str (if strictEqNum (propOf m "health") 1
            then "healthy" else "unhealthy")),
          ("uptime", str (uptime ++ "s"))]) := by
  simp only [nodeSummary, getProp_of_not_nullish m _ h, bind, Except.bind, pure, Except.pure]
  cases toStr (propOf m "uptime") <;> rfl

theorem nodeSummary_error_is_err {m e : JSVal} (h : nodeSummary m = .error e) :
    ∃ n k, e = err n k := by
  cases hn : isNullish m with
  | true =>
    cases m <;> simp [isNullish] at hn
    all_goals
      simp only [nodeSummary, getProp, bind, Except.bind] at h
      exact ⟨_, _, (Except.error.inj h).symm⟩
  | false =>
    rw [nodeSummary_of_not_nullish m hn] at h
    cases ht : toStr (propOf m "uptime") with
    | error e1 =>
      rw [ht] at h
      cases h
      exact toStr_error_is_err _ _ ht
    | ok s =>
      rw [ht] at h
      cases h

theorem not_nullish_of_nodeSummary {m y : JSVal} (h : nodeSummary m = .ok y) :
    isNullish m = false := by
  cases m <;> first
    | rfl
    | (simp only [nodeSummary, getProp, bind, Except.bind] at h; cases h)

theorem filterLoop_of_not_nullish (ms : List JSVal) (h : ∀ m ∈ ms, isNullish m = false) :
    filterLoop isHealthyMember ms = .ok (ms.filter healthFlagIsOne) := by
  induction ms with
  | nil => rfl
  | cons m rest ih =>
    have hm := h m (List.mem_cons_self _ _)
    have hrest := ih (fun x hx => h x (List.mem_cons_of_mem _ hx))
    simp only [filterLoop, isHealthyMember_of_not_nullish m hm, hrest, List.filter_cons]

theorem not_nullish_of_filterLoop {ms kept : List JSVal}
    (h : filterLoop isHealthyMember ms = .ok kept) : ∀ m ∈ ms, isNullish m = false := by
  induction ms generalizing kept with
  | nil => intro m hm; cases hm
  | cons x rest ih =>
    simp only [filterLoop] at h
    cases hx : isHealthyMember x with
    | error e => simp [hx] at h
    | ok keep =>
      cases hr : filterLoop isHealthyMember rest with
      | error e => simp [hx, hr] at h
      | ok ys =>
        have hnx : isNullish x = false := by
          cases hg : getProp x "health" with
          | error e => simp [isHealthyMember, hg] at hx
          | ok v => exact not_nullish_of_getProp hg
        intro m hm
        rcases List.mem_cons.mp hm with rfl | hm
        · exact hnx
        · exact ih hr m hm

theorem filterLoop_error_is_err {ms : List JSVal} {e : JSVal}
    (h : filterLoop isHealthyMember ms = .error e) : ∃ n m, e = err n m := by
  induction ms generalizing e with
  | nil => cases h
  | cons x rest ih =>
    simp only [filterLoop] at h
    cases hg : getProp x "health" with
    | error e1 =>
      simp [isHealthyMember, hg] at h
      exact h ▸ getProp_error_is_err hg
    | ok v =>
      cases hr : filterLoop isHealthyMember rest with
      | error e2 =>
        simp [isHealthyMember, hg, hr] at h
        exact h ▸ ih hr
      | ok ys => simp [isHealthyMember, hg, hr] at h

theorem callFilter_error_is_err {path : String} {v e : JSVal}
    (h : callFilter path v isHealthyMember = .error e) : ∃ n m, e = err n m := by
  cases v <;> simp only [callFilter] at h
  case arr xs => exact filterLoop_error_is_err h
  all_goals exact ⟨_, _, (Except.error.inj h).symm⟩

theorem mapLoop_error_is_err {ms : List JSVal} {e : JSVal}
    (h : mapLoop nodeSummary ms = .error e) : ∃ n m, e = err n m := by
  induction ms generalizing e with
  | nil => cases h
  | cons x rest ih =>
    simp only [mapLoop] at h
    cases hx : nodeSummary x with
    | error e1 =>
      simp only [hx] at h
      cases h
      exact nodeSummary_error_is_err hx
    | ok y =>
      cases hr : mapLoop nodeSummary rest with
      | error e2 =>
        simp only [hx, hr] at h
        cases h
        exact ih hr
      | ok ys =>
        simp only [hx, hr] at h
        cases h

/-- A map that returns has one result per element, in order. -/
theorem mapLoop_ok {cb : JSVal → Except JSVal JSVal} {ms nodes : List JSVal}
    (h : mapLoop cb ms = .ok nodes) :
    nodes.length = ms.length ∧
      ∀ i (hi : i < ms.length), ∃ y, cb (ms.get ⟨i, hi⟩) = .ok y ∧ nodes[i]? = some y := by
  induction ms generalizing nodes with
  | nil =>
    simp only [mapLoop] at h
    cases h
    exact ⟨rfl, fun i hi => absurd hi (Nat.not_lt_zero i)⟩
  | cons x rest ih =>
    simp only [mapLoop] at h
    cases hx : cb x with
    | error e1 =>
      simp only [hx] at h
      cases h
    | ok y =>
      cases hr : mapLoop cb rest with
      | error e2 =>
        simp only [hx, hr] at h
        cases h
      | ok ys =>
        simp only [hx, hr] at h
        cases h
        obtain ⟨hlen, hget⟩ := ih hr
        refine ⟨by simp [hlen], ?_⟩
        intro i hi
        cases i with
        | zero => exact ⟨y, hx, by simp⟩
        | succ k =>
          obtain ⟨z, hz, hzi⟩ := hget k (Nat.lt_of_succ_lt_succ hi)
          exact ⟨z, hz, by simpa using hzi⟩

/-- The map over documents whose uptime converts to a string returns. -/
theorem mapLoop_of_printable (ms : List JSVal) (hdocs : ∀ m ∈ ms, isNullish m = false)
    (huptime : ∀ m ∈ ms, ∃ s, toStr (propOf m "uptime") = .ok s) :
    ∃ nodes, mapLoop nodeSummary ms = .ok nodes := by
  induction ms with
  | nil => exact ⟨[], rfl⟩
  | cons m rest ih =>
    obtain ⟨s, hs⟩ := huptime m (List.mem_cons_self _ _)
    obtain ⟨ys, hys⟩ := ih (fun x hx => hdocs x (List.mem_cons_of_mem _ hx))
      (fun x hx => huptime x (List.mem_cons_of_mem _ hx))
    simp only [mapLoop, nodeSummary_of_not_nullish m (hdocs m (List.mem_cons_self _ _)), hs,
      hys]
    exact ⟨_, rfl⟩

/-! ## Lemmas on `healthCheck` -/

/-- The report for a status response whose member list `ms` holds documents. -/
theorem healthCheckReport_of_members (result : JSVal) (now : String) (ms : List JSVal)
    (hmembers : getProp result "members" = .ok (arr ms))
    (hdocs : ∀ m ∈ ms, isNullish m = false) :
    healthCheckReport result now =
      if (ms.filter healthFlagIsOne).length = 0 then
        .error (newError "No healthy nodes in the replica set")
      else
        match mapLoop nodeSummary ms with
        | .error e => .error e
        | .ok nodes =>
          .ok (successBody now (propOf result "set")
            (toString (ms.filter healthFlagIsOne).length ++ "/" ++ toString ms.length)
            nodes) := by
  have hset := getProp_of_not_nullish result "set" (not_nullish_of_getProp hmembers)
  have hlen : getProp (arr ms) "length" = .ok (num (ms.length : Int)) := by
    simp [getProp]
  unfold healthCheckReport
  simp only [hmembers, callFilter, callMap, filterLoop_of_not_nullish ms hdocs, hset, hlen,
    bind, Except.bind, pure, Except.pure, successBody, toStr_num_natCast]
  split_ifs
  · rfl
  · cases mapLoop nodeSummary ms <;> rfl

/-- A report is produced only from a member list of documents. -/
theorem members_of_healthCheckReport {result response : JSVal} {now : String}
    (h : healthCheckReport result now = .ok response) :
    ∃ ms, getProp result "members" = .ok (arr ms) ∧ ∀ m ∈ ms, isNullish m = false := by
  cases hm : getProp result "members" with
  | error e => simp [healthCheckReport, hm, bind, Except.bind] at h
  | ok members =>
    cases hf : callFilter "result.members" members isHealthyMember with
    | error e => simp [healthCheckReport, hm, hf, bind, Except.bind] at h
    | ok kept =>
      cases members <;> simp only [callFilter] at hf
      case arr xs => exact ⟨xs, rfl, not_nullish_of_filterLoop hf⟩
      all_goals cases hf

/-- Every exception the report construction throws is an `Error` object. -/
theorem healthCheckReport_error_is_err {result e : JSVal} {now : String}
    (h : healthCheckReport result now = .error e) : ∃ n m, e = err n m := by
  cases hm : getProp result "members" with
  | error e1 =>
    simp [healthCheckReport, hm, bind, Except.bind] at h
    exact h ▸ getProp_error_is_err hm
  | ok members =>
    cases hf : callFilter "result.members" members isHealthyMember with
    | error e1 =>
      simp [healthCheckReport, hm, hf, bind, Except.bind] at h
      exact h ▸ callFilter_error_is_err hf
    | ok kept =>
      cases members <;> simp only [callFilter] at hf
      case arr xs =>
        rw [healthCheckReport_of_members result now xs hm (not_nullish_of_filterLoop hf)] at h
        split_ifs at h
        · exact ⟨_, _, (Except.error.inj h).symm⟩
        · cases hmap : mapLoop nodeSummary xs with
          | error e1 =>
            rw [hmap] at h
            cases h
            exact mapLoop_error_is_err hmap
          | ok nodes =>
            rw [hmap] at h
            cases h
      all_goals cases hf

/-- A `response` object comes only from a connected driver whose ping succeeded and whose
status query returned. -/
theorem healthCheckTry_ok {d : Driver} {now : String} {calls : List DriverCall}
    {response : JSVal} (h : healthCheckTry d now = (calls, .ok response)) :
    ∃ result, d.replSetGetStatus = .ok result ∧
      healthCheckReport result now = .ok response ∧
      calls = [.ping, .replSetGetStatus] := by
  unfold healthCheckTry at h
  split_ifs at h with hready
  · cases h
  · cases hp : d.ping with
    | error e => simp [hp] at h
    | ok pingResult =>
      cases ho : optChain pingResult "ok" with
      | error e => simp [hp, ho] at h
      | ok ok =>
        simp only [hp, ho] at h
        split_ifs at h with hfalsy
        · cases h
        · cases hs : d.replSetGetStatus with
          | error e => simp [hs] at h
          | ok result =>
            simp only [hs, Prod.mk.injEq] at h
            exact ⟨result, rfl, h.2, h.1.symm⟩

/-- An exception leaving the `try` block is an `Error` object or was thrown by the driver. -/
theorem healthCheckTry_error {d : Driver} {now : String} {calls : List DriverCall}
    {e : JSVal} (h : healthCheckTry d now = (calls, .error e)) :
    (∃ n m, e = err n m) ∨ d.ping = .error e ∨ d.replSetGetStatus = .error e := by
  unfold healthCheckTry at h
  split_ifs at h with hready
  · simp only [Prod.mk.injEq, Except.error.injEq] at h
    exact Or.inl ⟨_, _, h.2.symm⟩
  · cases hp : d.ping with
    | error e1 =>
      simp only [hp, Prod.mk.injEq, Except.error.injEq] at h
      exact Or.inr (Or.inl (by rw [h.2]))
    | ok pingResult =>
      cases ho : optChain pingResult "ok" with
      | error e1 =>
        simp only [hp, ho, Prod.mk.injEq, Except.error.injEq] at h
        exact Or.inl (h.2 ▸ optChain_error_is_err ho)
      | ok ok =>
        simp only [hp, ho] at h
        split_ifs at h with hfalsy
        · simp only [Prod.mk.injEq, Except.error.injEq] at h
          exact Or.inl ⟨_, _, h.2.symm⟩
        · cases hs : d.replSetGetStatus with
          | error e1 =>
            simp only [hs, Prod.mk.injEq, Except.error.injEq] at h
            exact Or.inr (Or.inr (by rw [h.2]))
          | ok result =>
            simp only [hs, Prod.mk.injEq] at h
            exact Or.inl (healthCheckReport_error_is_err h.2)

/-- The run of the `try` block for a connected driver whose ping succeeded and whose status
query returned `result`. -/
theorem healthCheckTry_of_status (d : Driver) (now : String) (pingResult result : JSVal)
    (hconn : d.readyState = 1) (hping : d.ping = .ok pingResult)
    (hok : pingSucceeded pingResult = true) (hstatus : d.replSetGetStatus = .ok result) :
    healthCheckTry d now = ([.ping, .replSetGetStatus], healthCheckReport result now) := by
  unfold healthCheckTry
  unfold pingSucceeded at hok
  cases ho : optChain pingResult "ok" with
  | error e => simp [ho] at hok
  | ok ok =>
    simp only [ho] at hok
    simp [hconn, hping, ho, hok, hstatus]

/-- The body of a 200 answer is the report built from the status response, and its node
list is the result of the map over the members. -/
theorem healthCheckTry_ok_body {d : Driver} {now : String} {calls : List DriverCall}
    {response : JSVal} (h : healthCheckTry d now = (calls, .ok response)) :
    ∃ result ms nodes, d.replSetGetStatus = .ok result ∧
      getProp result "members" = .ok (arr ms) ∧
      mapLoop nodeSummary ms = .ok nodes ∧
      response = successBody now (propOf result "set")
        (toString (ms.filter healthFlagIsOne).length ++ "/" ++ toString ms.length)
        nodes := by
  obtain ⟨result, hstatus, hreport, -⟩ := healthCheckTry_ok h
  obtain ⟨ms, hmembers, hdocs⟩ := members_of_healthCheckReport hreport
  rw [healthCheckReport_of_members result now ms hmembers hdocs] at hreport
  split_ifs at hreport
  cases hmap : mapLoop nodeSummary ms with
  | error e =>
    rw [hmap] at hreport
    cases hreport
  | ok nodes =>
    rw [hmap] at hreport
    exact ⟨result, ms, nodes, hstatus, hmembers, hmap, (Except.ok.inj hreport).symm⟩

/-! ## Claims on `healthCheck` -/

/-- C1: for every readyState other than 1, `healthCheck` answers with status 500 and the
error body whose message is "Database connection is not ready", the returned promise
resolves, and neither the ping nor the replica-set status query is issued: the call count
of both driver operations is zero. -/
theorem healthCheck_not_connected (d : Driver) (now : String) (res : Res)
    (hstate : d.readyState ≠ 1) :
    (healthCheck d now res).res.sent =
        res.sent ++ [(500, obj [
          ("status", str "error"),
          ("message", str "Database connection is not ready"),
          ("timestamp", str now)])] ∧
      (healthCheck d now res).completion = .ok () ∧
      (healthCheck d now res).calls = [] ∧
      (healthCheck d now res).calls.count .ping = 0 ∧
      (healthCheck d now res).calls.count .replSetGetStatus = 0 := by
  have htry : healthCheckTry d now =
      ([], .error (newError "Database connection is not ready")) := by
    unfold healthCheckTry
    rw [if_pos hstate]
  have hrun : healthCheck d now res =
      ⟨((res.setHeader "Content-Type" "application/json").status 500).send (obj [
          ("status", str "error"),
          ("message", str "Database connection is not ready"),
          ("timestamp", str now)]), [], .ok ()⟩ := by
    unfold healthCheck
    rw [htry]
    rfl
  rw [hrun]
  exact ⟨rfl, rfl, rfl, rfl, rfl⟩

/-- Witness of C1 at readyState 0 (disconnected). -/
theorem healthCheck_not_connected_witness :
    (healthCheck ⟨0, .ok (obj [("ok", num 1)]), .ok undefined⟩ "now" Res.fresh).res.sent =
        Res.fresh.sent ++ [(500, obj [
          ("status", str "error"),
          ("message", str "Database connection is not ready"),
          ("timestamp", str "now")])] ∧
      (healthCheck ⟨0, .ok (obj [("ok", num 1)]), .ok undefined⟩ "now" Res.fresh).completion
        = .ok () ∧
      (healthCheck ⟨0, .ok (obj [("ok", num 1)]), .ok undefined⟩ "now" Res.fresh).calls = [] ∧
      (healthCheck ⟨0, .ok (obj [("ok", num 1)]), .ok undefined⟩ "now" Res.fresh).calls.count
        .ping = 0 ∧
      (healthCheck ⟨0, .ok (obj [("ok", num 1)]), .ok undefined⟩ "now" Res.fresh).calls.count
        .replSetGetStatus = 0 :=
  healthCheck_not_connected ⟨0, .ok (obj [("ok", num 1)]), .ok undefined⟩ "now" Res.fresh
    (by decide)

/-- C6: when the connection is Connected and the ping returns a result that is absent or
whose `ok` field is falsy, `healthCheck` answers with status 500 and the message
"Database ping failed", and the replica-set status query is not issued. -/
theorem healthCheck_ping_failed (d : Driver) (now : String) (res : Res) (pingResult : JSVal)
    (hconn : d.readyState = 1) (hping : d.ping = .ok pingResult)
    (hfail : pingSucceeded pingResult = false) :
    (healthCheck d now res).res.sent =
        res.sent ++ [(500, obj [
          ("status", str "error"),
          ("message", str "Database ping failed"),
          ("timestamp", str now)])] ∧
      (healthCheck d now res).completion = .ok () ∧
      (healthCheck d now res).calls = [.ping] ∧
      (healthCheck d now res).calls.count .replSetGetStatus = 0 := by
  have htry : healthCheckTry d now = ([.ping], .error (newError "Database ping failed")) := by
    unfold healthCheckTry
    unfold pingSucceeded at hfail
    cases ho : optChain pingResult "ok" with
    | error e =>
      cases pingResult <;> simp only [optChain, getProp] at ho <;> cases ho
    | ok ok =>
      simp only [ho] at hfail
      simp [hconn, hping, ho, hfail]
  have hrun : healthCheck d now res =
      ⟨((res.setHeader "Content-Type" "application/json").status 500).send (obj [
          ("status", str "error"),
          ("message", str "Database ping failed"),
          ("timestamp", str now)]), [.ping], .ok ()⟩ := by
    unfold healthCheck
    rw [htry]
    rfl
  rw [hrun]
  exact ⟨rfl, rfl, rfl, rfl⟩

/-- Witness of C6 at the ping result `{ok: 0}`. -/
theorem healthCheck_ping_failed_witness :
    (healthCheck ⟨1, .ok (obj [("ok", num 0)]), .ok undefined⟩ "now" Res.fresh).res.sent =
        Res.fresh.sent ++ [(500, obj [
          ("status", str "error"),
          ("message", str "Database ping failed"),
          ("timestamp", str "now")])] ∧
      (healthCheck ⟨1, .ok (obj [("ok", num 0)]), .ok undefined⟩ "now" Res.fresh).completion
        = .ok () ∧
      (healthCheck ⟨1, .ok (obj [("ok", num 0)]), .ok undefined⟩ "now" Res.fresh).calls
        = [.ping] ∧
      (healthCheck ⟨1, .ok (obj [("ok", num 0)]), .ok undefined⟩ "now" Res.fresh).calls.count
        .replSetGetStatus = 0 :=
  healthCheck_ping_failed ⟨1, .ok (obj [("ok", num 0)]), .ok undefined⟩ "now" Res.fresh
    (obj [("ok", num 0)]) rfl rfl (by decide)

/-- C3 fails as stated: in the member list `[null]` no member has health flag 1, yet the
filter callback throws on reading `health` of `null`, and `healthCheck` answers 500 with
the message of that `TypeError` instead of "No healthy nodes in the replica set". -/
theorem healthCheck_null_member_message :
    (healthCheck (connectedDriver (obj [("set", str "rs0"), ("members", arr [null])]))
        "now" Res.fresh).res.sent =
        [(500, obj [
          ("status", str "error"),
          ("message", str "Cannot read properties of null (reading \x27health\x27)"),
          ("timestamp", str "now")])] ∧
      ¬ ((healthCheck (connectedDriver (obj [("set", str "rs0"), ("members", arr [null])]))
        "now" Res.fresh).res.sent =
        [(500, obj [
          ("status", str "error"),
          ("message", str "No healthy nodes in the replica set"),
          ("timestamp", str "now")])]) := by
  have hrun : (healthCheck (connectedDriver (obj [("set", str "rs0"),
      ("members", arr [null])])) "now" Res.fresh).res.sent =
      [(500, obj [
        ("status", str "error"),
        ("message", str "Cannot read properties of null (reading \x27health\x27)"),
        ("timestamp", str "now")])] := rfl
  refine ⟨hrun, ?_⟩
  rw [hrun]
  intro h
  simp only [List.cons.injEq, Prod.mk.injEq, JSVal.obj.injEq, JSVal.str.injEq] at h
  exact absurd h.1.2.2.1.2 (by decide)

/-- C3, as the code has it: when the connection is Connected, the ping succeeded and the
status response lists members that are neither `undefined` nor `null`, none of which has
health flag 1 (the empty list included), `healthCheck` answers with status 500 and the
message "No healthy nodes in the replica set", after issuing the ping and the status
query. -/
theorem healthCheck_no_healthy_nodes (d : Driver) (now : String) (res : Res)
    (pingResult result : JSVal) (ms : List JSVal)
    (hconn : d.readyState = 1) (hping : d.ping = .ok pingResult)
    (hok : pingSucceeded pingResult = true) (hstatus : d.replSetGetStatus = .ok result)
    (hmembers : getProp result "members" = .ok (arr ms))
    (hdocs : ∀ m ∈ ms, isNullish m = false)
    (hnone : ∀ m ∈ ms, healthFlagIsOne m = false) :
    (healthCheck d now res).res.sent =
        res.sent ++ [(500, obj [
          ("status", str "error"),
          ("message", str "No healthy nodes in the replica set"),
          ("timestamp", str now)])] ∧
      (healthCheck d now res).completion = .ok () ∧
      (healthCheck d now res).calls = [.ping, .replSetGetStatus] := by
  have hfilter : ms.filter healthFlagIsOne = [] :=
    List.filter_eq_nil_iff.mpr (fun m hm => by simp [hnone m hm])
  have htry : healthCheckTry d now = ([.ping, .replSetGetStatus],
      .error (newError "No healthy nodes in the replica set")) := by
    rw [healthCheckTry_of_status d now pingResult result hconn hping hok hstatus,
      healthCheckReport_of_members result now ms hmembers hdocs, hfilter]
    rfl
  have hrun : healthCheck d now res =
      ⟨((res.setHeader "Content-Type" "application/json").status 500).send (obj [
          ("status", str "error"),
          ("message", str "No healthy nodes in the replica set"),
          ("timestamp", str now)]), [.ping, .replSetGetStatus], .ok ()⟩ := by
    unfold healthCheck
    rw [htry]
    rfl
  rw [hrun]
  exact ⟨rfl, rfl, rfl⟩

/-- Witness of C3 as the code has it, at the members `[{health:0},{health:0}]`. -/
theorem healthCheck_no_healthy_nodes_witness :
    (healthCheck (connectedDriver (obj [("set", str "rs0"),
        ("members", arr [obj [("health", num 0)], obj [("health", num 0)]])]))
        "now" Res.fresh).res.sent =
        Res.fresh.sent ++ [(500, obj [
          ("status", str "error"),
          ("message", str "No healthy nodes in the replica set"),
          ("timestamp", str "now")])] ∧
      (healthCheck (connectedDriver (obj [("set", str "rs0"),
        ("members", arr [obj [("health", num 0)], obj [("health", num 0)]])]))
        "now" Res.fresh).completion = .ok () ∧
      (healthCheck (connectedDriver (obj [("set", str "rs0"),
        ("members", arr [obj [("health", num 0)], obj [("health", num 0)]])]))
        "now" Res.fresh).calls = [.ping, .replSetGetStatus] :=
  healthCheck_no_healthy_nodes
    (connectedDriver (obj [("set", str "rs0"),
      ("members", arr [obj [("health", num 0)], obj [("health", num 0)]])]))
    "now" Res.fresh (obj [("ok", num 1)])
    (obj [("set", str "rs0"),
      ("members", arr [obj [("health", num 0)], obj [("health", num 0)]])])
    [obj [("health", num 0)], obj [("health", num 0)]]
    rfl rfl (by decide) rfl rfl (by decide) (by decide)

/-- C2 fails as stated: the member lists `[{health:1}, null]` and
`[{health:1, uptime:{toString:1}}]` both contain a member with health flag 1, the
connection is Connected and the ping succeeds, yet `healthCheck` answers 500: the filter
callback throws on the `null` member, and the template literal around the uptime throws on
an uptime that has no string conversion. -/
theorem healthCheck_fails_with_healthy_member :
    (healthCheck (connectedDriver (obj [("set", str "rs0"),
        ("members", arr [obj [("health", num 1)], null])])) "now" Res.fresh).res.sent =
        [(500, obj [
          ("status", str "error"),
          ("message", str "Cannot read properties of null (reading \x27health\x27)"),
          ("timestamp", str "now")])] ∧
      (healthCheck (connectedDriver (obj [("set", str "rs0"),
        ("members", arr [obj [("health", num 1), ("uptime", unprintable)]])]))
        "now" Res.fresh).res.sent =
        [(500, obj [
          ("status", str "error"),
          ("message", str "Cannot convert object to primitive value"),
          ("timestamp", str "now")])] :=
  ⟨rfl, rfl⟩

/-- C2, as the code has it: when the connection is Connected, the ping succeeded and the
status response lists members that are neither `undefined` nor `null`, whose uptime has a
string conversion, and at least one of which has health flag 1, `healthCheck` does not
fail: it answers 200 with status "success", the replica-set name of the response, and the
ratio "h/t" where h counts the members whose health flag is 1 and t counts all members;
the node list has one entry per member. -/
theorem healthCheck_success (d : Driver) (now : String) (res : Res)
    (pingResult result : JSVal) (ms : List JSVal)
    (hconn : d.readyState = 1) (hping : d.ping = .ok pingResult)
    (hok : pingSucceeded pingResult = true) (hstatus : d.replSetGetStatus = .ok result)
    (hmembers : getProp result "members" = .ok (arr ms))
    (hdocs : ∀ m ∈ ms, isNullish m = false)
    (huptime : ∀ m ∈ ms, ∃ s, toStr (propOf m "uptime") = .ok s)
    (hone : ∃ m ∈ ms, healthFlagIsOne m = true) :
    ∃ nodes, nodes.length = ms.length ∧
      (healthCheck d now res).res.sent =
        res.sent ++ [(200, obj [
          ("status", str "success"),
          ("message", str "Health check passed"),
          ("timestamp", str now),
          ("database", obj [
            ("replicaSet", propOf result "set"),
            ("nodesHealth", str (toString (ms.filter healthFlagIsOne).length ++ "/" ++
              toString ms.length)),
            ("nodes", arr nodes)])])] ∧
      (healthCheck d now res).completion = .ok () ∧
      (healthCheck d now res).calls = [.ping, .replSetGetStatus] := by
  have hfilter : (ms.filter healthFlagIsOne).length ≠ 0 := by
    obtain ⟨m, hm, hflag⟩ := hone
    exact List.length_pos.mpr (List.ne_nil_of_mem (List.mem_filter.mpr ⟨hm, hflag⟩))
      |> Nat.pos_iff_ne_zero.mp
  obtain ⟨nodes, hnodes⟩ := mapLoop_of_printable ms hdocs huptime
  have htry : healthCheckTry d now = ([.ping, .replSetGetStatus],
      .ok (successBody now (propOf result "set")
        (toString (ms.filter healthFlagIsOne).length ++ "/" ++ toString ms.length)
        nodes)) := by
    rw [healthCheckTry_of_status d now pingResult result hconn hping hok hstatus,
      healthCheckReport_of_members result now ms hmembers hdocs, if_neg hfilter, hnodes]
  refine ⟨nodes, (mapLoop_ok hnodes).1, ?_⟩
  unfold healthCheck
  rw [htry]
  exact ⟨rfl, rfl, rfl⟩

/-- Witness of C2 as the code has it: the members `[{health:1},{health:1},{health:0}]` of
replica set "rs0" give 200 with the ratio "2/3". -/
theorem healthCheck_success_witness :
    ∃ nodes, nodes.length = sampleMembers.length ∧
      (healthCheck (connectedDriver (obj [("set", str "rs0"), ("members", arr sampleMembers)]))
        "now" Res.fresh).res.sent =
        Res.fresh.sent ++ [(200, obj [
          ("status", str "success"),
          ("message", str "Health check passed"),
          ("timestamp", str "now"),
          ("database", obj [
            ("replicaSet", str "rs0"),
            ("nodesHealth", str "2/3"),
            ("nodes", arr nodes)])])] ∧
      (healthCheck (connectedDriver (obj [("set", str "rs0"), ("members", arr sampleMembers)]))
        "now" Res.fresh).completion = .ok () ∧
      (healthCheck (connectedDriver (obj [("set", str "rs0"), ("members", arr sampleMembers)]))
        "now" Res.fresh).calls = [.ping, .replSetGetStatus] :=
  healthCheck_success
    (connectedDriver (obj [("set", str "rs0"), ("members", arr sampleMembers)]))
    "now" Res.fresh (obj [("ok", num 1)])
    (obj [("set", str "rs0"), ("members", arr sampleMembers)]) sampleMembers
    rfl rfl (by decide) rfl rfl (by decide)
    (fun m hm => by
      simp only [sampleMembers, List.mem_cons, List.mem_singleton, List.not_mem_nil,
        or_false] at hm
      rcases hm with rfl | rfl | rfl <;> exact ⟨"undefined", rfl⟩)
    ⟨obj [("health", num 1)], by simp [sampleMembers], by decide⟩

/-- C5: in every successful health report (a 200 answer with body `body`), the node list
has exactly one entry per member of the status response, in the same order, and the entry
of a member carries its name, its state string, the label "healthy" if its health flag is
the number 1 and "unhealthy" otherwise, and the string conversion of its uptime followed
by "s". -/
theorem healthCheck_report_nodes (d : Driver) (now : String) (res : Res) (body : JSVal)
    (h200 : (healthCheck d now res).res.sent = res.sent ++ [(200, body)]) :
    ∃ result ms replicaSet ratio nodes,
      d.replSetGetStatus = .ok result ∧
      getProp result "members" = .ok (arr ms) ∧
      body = successBody now replicaSet ratio nodes ∧
      nodes.length = ms.length ∧
      ∀ i (hi : i < ms.length), ∃ uptime,
        toStr (propOf (ms.get ⟨i, hi⟩) "uptime") = .ok uptime ∧
        nodes[i]? = some (obj [
          ("name", propOf (ms.get ⟨i, hi⟩) "name"),
          ("state", propOf (ms.get ⟨i, hi⟩) "stateStr"),
          ("health", str (if strictEqNum (propOf (ms.get ⟨i, hi⟩) "health") 1
            then "healthy" else "unhealthy")),
          ("uptime", str (uptime ++ "s"))]) := by
  cases htry : healthCheckTry d now with
  | mk calls outcome =>
    cases outcome with
    | error e =>
      unfold healthCheck at h200
      rw [htry] at h200
      cases hmsg : getProp e "message" with
      | error e1 =>
        simp only [hmsg, Res.setHeader] at h200
        simp at h200
      | ok message =>
        simp only [hmsg, Res.setHeader, Res.status, Res.send] at h200
        simp at h200
    | ok response =>
      unfold healthCheck at h200
      rw [htry] at h200
      simp only [Res.setHeader, Res.status, Res.send] at h200
      have hbody : response = body := by
        have := List.append_cancel_left h200
        simpa using this
      obtain ⟨result, ms, nodes, hstatus, hmembers, hmap, hresp⟩ :=
        healthCheckTry_ok_body htry
      obtain ⟨hlen, hget⟩ := mapLoop_ok hmap
      refine ⟨result, ms, _, _, nodes, hstatus, hmembers, hbody ▸ hresp, hlen, ?_⟩
      intro i hi
      obtain ⟨y, hy, hyi⟩ := hget i hi
      rw [nodeSummary_of_not_nullish _ (not_nullish_of_nodeSummary hy)] at hy
      cases hu : toStr (propOf (ms.get ⟨i, hi⟩) "uptime") with
      | error e =>
        rw [hu] at hy
        cases hy
      | ok uptime =>
        rw [hu] at hy
        exact ⟨uptime, rfl, by rw [hyi, ← Except.ok.inj hy]⟩

/-- Witness of C5 on a primary that is up and a secondary that is down. -/
theorem healthCheck_report_nodes_witness :
    ∃ result ms replicaSet ratio nodes,
      (connectedDriver (obj [("set", str "rs0"), ("members", arr [
          obj [("name", str "mongo1:27017"), ("stateStr", str "PRIMARY"),
            ("health", num 1), ("uptime", num 120)],
          obj [("name", str "mongo2:27017"), ("stateStr", str "(not reachable)"),
            ("health", num 0), ("uptime", num 0)]])])).replSetGetStatus = .ok result ∧
      getProp result "members" = .ok (arr ms) ∧
      obj [
        ("status", str "success"),
        ("message", str "Health check passed"),
        ("timestamp", str "now"),
        ("database", obj [
          ("replicaSet", str "rs0"),
          ("nodesHealth", str "1/2"),
          ("nodes", arr [
            obj [("name", str "mongo1:27017"), ("state", str "PRIMARY"),
              ("health", str "healthy"), ("uptime", str "120s")],
            obj [("name", str "mongo2:27017"), ("state", str "(not reachable)"),
              ("health", str "unhealthy"), ("uptime", str "0s")]])])]
        = successBody "now" replicaSet ratio nodes ∧
      nodes.length = ms.length ∧
      ∀ i (hi : i < ms.length), ∃ uptime,
        toStr (propOf (ms.get ⟨i, hi⟩) "uptime") = .ok uptime ∧
        nodes[i]? = some (obj [
          ("name", propOf (ms.get ⟨i, hi⟩) "name"),
          ("state", propOf (ms.get ⟨i, hi⟩) "stateStr"),
          ("health", str (if strictEqNum (propOf (ms.get ⟨i, hi⟩) "health") 1
            then "healthy" else "unhealthy")),
          ("uptime", str (uptime ++ "s"))]) :=
  healthCheck_report_nodes
    (connectedDriver (obj [("set", str "rs0"), ("members", arr [
      obj [("name", str "mongo1:27017"), ("stateStr", str "PRIMARY"),
        ("health", num 1), ("uptime", num 120)],
      obj [("name", str "mongo2:27017"), ("stateStr", str "(not reachable)"),
        ("health", num 0), ("uptime", num 0)]])]))
    "now" Res.fresh _ rfl

/-- C4, as the code has it: when every value the ping or the status query throws carries a
string message (as `Error` objects do), then for every connection state and every value
the two operations return, `healthCheck` completes without throwing and sends exactly one
response: status 200 with a health report, or status 500 with a body made of status
"error", a message string and the timestamp. -/
theorem healthCheck_structured_result (d : Driver) (now : String) (res : Res)
    (hping : ∀ e, d.ping = .error e → ∃ s, getProp e "message" = .ok (str s))
    (hstatus : ∀ e, d.replSetGetStatus = .error e → ∃ s, getProp e "message" = .ok (str s)) :
    (healthCheck d now res).completion = .ok () ∧
      ((∃ replicaSet ratio nodes, (healthCheck d now res).res.sent =
          res.sent ++ [(200, successBody now replicaSet ratio nodes)]) ∨
        (∃ message, (healthCheck d now res).res.sent =
          res.sent ++ [(500, obj [("status", str "error"), ("message", str message),
            ("timestamp", str now)])])) := by
  cases htry : healthCheckTry d now with
  | mk calls outcome =>
    cases outcome with
    | ok response =>
      obtain ⟨result, ms, nodes, -, -, -, hresp⟩ := healthCheckTry_ok_body htry
      unfold healthCheck
      rw [htry, hresp]
      exact ⟨rfl, Or.inl ⟨_, _, _, rfl⟩⟩
    | error e =>
      have hmsg : ∃ s, getProp e "message" = .ok (str s) := by
        rcases healthCheckTry_error htry with ⟨n, m, rfl⟩ | hp | hs
        · exact ⟨m, getProp_err_message n m⟩
        · exact hping e hp
        · exact hstatus e hs
      obtain ⟨s, hs⟩ := hmsg
      have hrun : healthCheck d now res =
          ⟨((res.setHeader "Content-Type" "application/json").status 500).send (obj [
            ("status", str "error"), ("message", str s), ("timestamp", str now)]),
            calls, .ok ()⟩ := by
        unfold healthCheck
        rw [htry]
        simp only [hs]
      rw [hrun]
      exact ⟨rfl, Or.inr ⟨s, rfl⟩⟩

/-- Witness of C4 as the code has it: the ping throws `new Error("socket closed")`. -/
theorem healthCheck_structured_result_witness :
    (healthCheck ⟨1, .error (newError "socket closed"), .ok undefined⟩ "now"
        Res.fresh).completion = .ok () ∧
      ((∃ replicaSet ratio nodes,
          (healthCheck ⟨1, .error (newError "socket closed"), .ok undefined⟩ "now"
            Res.fresh).res.sent =
          Res.fresh.sent ++ [(200, successBody "now" replicaSet ratio nodes)]) ∨
        (∃ message,
          (healthCheck ⟨1, .error (newError "socket closed"), .ok undefined⟩ "now"
            Res.fresh).res.sent =
          Res.fresh.sent ++ [(500, obj [("status", str "error"), ("message", str message),
            ("timestamp", str "now")])])) :=
  healthCheck_structured_result ⟨1, .error (newError "socket closed"), .ok undefined⟩ "now"
    Res.fresh
    (fun e he => ⟨"socket closed", by cases he; rfl⟩)
    (fun e he => by cases he)

/-- C4 fails as stated: when the ping throws `null`, the `catch` block of `healthCheck`
throws a `TypeError` on reading `error.message`; the promise rejects and no response is
sent. -/
theorem healthCheck_rejects_on_thrown_null :
    (healthCheck ⟨1, .error null, .ok undefined⟩ "now" Res.fresh).completion =
        .error (typeError "Cannot read properties of null (reading \x27message\x27)") ∧
      (healthCheck ⟨1, .error null, .ok undefined⟩ "now" Res.fresh).res.sent = [] ∧
      ¬ ((healthCheck ⟨1, .error null, .ok undefined⟩ "now" Res.fresh).completion = .ok ()) :=
  ⟨rfl, rfl, fun h => by cases h⟩

/-! ## Claims on the connection lifecycle -/

/-- C7 fails as stated: when the connection attempt fails with a value whose string
conversion throws, the template literal in the `catch` block of `connect` throws before
`process.exit(1)` is reached: `connect` rejects and records no exit. -/
theorem connect_rejects_on_unprintable_error :
    (connect (.error unprintable) []).completion =
        .threw (typeError "Cannot convert object to primitive value") ∧
      (connect (.error unprintable) []).events = setupListeners [] ++ [.driverConnect uri] ∧
      ¬ ((connect (.error unprintable) []).completion = .exited 1) := by
  refine ⟨rfl, rfl, ?_⟩
  intro h
  have h2 : Completion.threw (typeError "Cannot convert object to primitive value") =
      Completion.exited 1 := h
  cases h2

/-- C7, as the code has it: if the driver's connection attempt fails with any thrown value,
`startServer` ends the process with exit code 1 as its last event, without any `listen`
event; `connect` itself ends the process with exit code 1 when the thrown value has a
string conversion, and otherwise rejects, so that the `catch` block of `startServer` exits;
over all outcomes of the connection attempt, `startServer` reaches `app.listen` exactly
when the driver connected, and then the `listen` event follows the connection attempt. -/
theorem startServer_exits_on_connect_failure (e : JSVal) :
    (startServer (.error e)).completion = .exited 1 ∧
      (startServer (.error e)).events.getLast? = some (.exit 1) ∧
      (∀ p, ProcEvent.listen p ∉ (startServer (.error e)).events) ∧
      (connect (.error e) []).completion =
        (match toStr e with
          | .ok _ => .exited 1
          | .error thrown => .threw thrown) ∧
      (∀ o, (ProcEvent.listen port ∈ (startServer o).events ↔ o = .ok ())) ∧
      (startServer (.ok ())).events = setupListeners [] ++
        [.driverConnect uri, .listen port, .log [str "Server running on port 3000"]] := by
  have herr : ∀ e1 : JSVal, (startServer (.error e1)).completion = .exited 1 ∧
      (startServer (.error e1)).events.getLast? = some (.exit 1) ∧
      (∀ p, ProcEvent.listen p ∉ (startServer (.error e1)).events) := by
    intro e1
    cases ht : toStr e1 with
    | error thrown => simp [startServer, connect, setupListeners, ht]
    | ok text => simp [startServer, connect, setupListeners, ht]
  refine ⟨(herr e).1, (herr e).2.1, (herr e).2.2, ?_, ?_, rfl⟩
  · cases ht : toStr e <;> simp [connect, ht]
  · intro o
    cases o with
    | error e1 =>
      have := (herr e1).2.2 port
      simp [this]
    | ok u => simp [startServer, connect, setupListeners]

/-- C8 fails as stated: when the driver's disconnect throws a value whose string
conversion throws, the template literal in the `catch` block of `disconnect` throws and
`disconnect` rejects, on the first call already. -/
theorem disconnect_rejects_on_unprintable_error :
    (disconnect (.error unprintable) []).completion =
        .threw (typeError "Cannot convert object to primitive value") ∧
      ¬ ((disconnect (.error unprintable) []).completion = .returned) := by
  refine ⟨rfl, ?_⟩
  intro h
  have h2 : Completion.threw (typeError "Cannot convert object to primitive value") =
      Completion.returned := h
  cases h2

/-- C8, as the code has it: when every value the driver's disconnect throws has a string
conversion (as every `Error` object has), then for every behaviour of the driver's
disconnect on a first and on a second call, and from any history of the process (also one
without a connection attempt), both calls of `disconnect` in a row return without throwing
and without ending the process. -/
theorem disconnect_twice_returns (first second : Except JSVal Unit)
    (events : List ProcEvent)
    (hfirst : ∀ e, first = .error e → ∃ s, toStr e = .ok s)
    (hsecond : ∀ e, second = .error e → ∃ s, toStr e = .ok s) :
    (disconnect first events).completion = .returned ∧
      (disconnect second (disconnect first events).events).completion = .returned := by
  have hret : ∀ (o : Except JSVal Unit) (evs : List ProcEvent),
      (∀ e, o = .error e → ∃ s, toStr e = .ok s) →
      (disconnect o evs).completion = .returned := by
    intro o evs ho
    cases o with
    | ok u => rfl
    | error e =>
      obtain ⟨s, hs⟩ := ho e rfl
      simp [disconnect, hs]
  exact ⟨hret first events hfirst, hret second _ hsecond⟩

/-- Witness of C8 as the code has it: the first call throws `new Error("topology closed")`,
the second succeeds, and the connection was never established. -/
theorem disconnect_twice_returns_witness :
    (disconnect (.error (newError "topology closed")) []).completion = .returned ∧
      (disconnect (.ok ())
        (disconnect (.error (newError "topology closed")) []).events).completion
        = .returned :=
  disconnect_twice_returns (.error (newError "topology closed")) (.ok ()) []
    (fun e he => by cases he; exact ⟨"Error: topology closed", rfl⟩)
    (fun e he => by cases he)

/-- C9 fails as stated: in a started process, when the driver's disconnect throws a value
whose string conversion throws, `disconnect` rejects inside the SIGINT listener and
`process.exit(0)` is never reached. -/
theorem sigint_without_exit_on_unprintable_error :
    (receiveSigint (.error unprintable) (startServer (.ok ())).events).completion =
        .threw (typeError "Cannot convert object to primitive value") ∧
      (receiveSigint (.error unprintable) (startServer (.ok ())).events).events =
        (startServer (.ok ())).events ++ [.driverDisconnect] ∧
      ¬ ((receiveSigint (.error unprintable) (startServer (.ok ())).events).completion =
        .exited 0) := by
  refine ⟨rfl, rfl, ?_⟩
  intro h
  have h2 : Completion.threw (typeError "Cannot convert object to primitive value") =
      Completion.exited 0 := h
  cases h2

/-- C9, as the code has it: on receipt of SIGINT in any state in which the listener of
`setupListeners` is registered, and for every outcome of the driver's disconnect whose
thrown value has a string conversion (as every `Error` object has), the listener first
runs `disconnect` to completion (the driver call, then the line `disconnect` logs) and only
then ends the process, with exit code 0. -/
theorem sigint_disconnects_then_exits (driverDisconnect : Except JSVal Unit)
    (events : List ProcEvent)
    (hinst : sigintInstalled events = true)
    (hprint : ∀ e, driverDisconnect = .error e → ∃ s, toStr e = .ok s) :
    (receiveSigint driverDisconnect events).completion = .exited 0 ∧
      (receiveSigint driverDisconnect events).events =
        (disconnect driverDisconnect events).events ++ [.exit 0] ∧
      (disconnect driverDisconnect events).completion = .returned ∧
      ∃ line, (disconnect driverDisconnect events).events =
          events ++ [.driverDisconnect, line] ∧
        ((driverDisconnect = .ok () ∧ line = .log [str "MongoDB disconnected"]) ∨
          ∃ e s, driverDisconnect = .error e ∧ toStr e = .ok s ∧
            line = .logError [str ("MongoDB disconnect error: " ++ s)]) := by
  unfold receiveSigint
  rw [if_pos hinst]
  cases driverDisconnect with
  | ok u =>
    refine ⟨rfl, rfl, rfl, _, ?_, Or.inl ⟨rfl, rfl⟩⟩
    simp [disconnect]
  | error e =>
    obtain ⟨s, hs⟩ := hprint e rfl
    refine ⟨?_, ?_, ?_, _, ?_, Or.inr ⟨e, s, rfl, hs, rfl⟩⟩
    · simp [sigintListener, disconnect, hs]
    · simp [sigintListener, disconnect, hs]
    · simp [disconnect, hs]
    · simp [disconnect, hs]

/-- Witness of C9 as the code has it: SIGINT in a process started by `startServer`, while
the driver's disconnect throws `new Error("topology closed")`. -/
theorem sigint_disconnects_then_exits_witness :
    (receiveSigint (.error (newError "topology closed"))
        (startServer (.ok ())).events).completion = .exited 0 ∧
      (receiveSigint (.error (newError "topology closed"))
        (startServer (.ok ())).events).events =
        (disconnect (.error (newError "topology closed"))
          (startServer (.ok ())).events).events ++ [.exit 0] ∧
      (disconnect (.error (newError "topology closed"))
        (startServer (.ok ())).events).completion = .returned ∧
      ∃ line, (disconnect (.error (newError "topology closed"))
          (startServer (.ok ())).events).events =
          (startServer (.ok ())).events ++ [.driverDisconnect, line] ∧
        (((.error (newError "topology closed") : Except JSVal Unit) = .ok () ∧
            line = .log [str "MongoDB disconnected"]) ∨
          ∃ e s, (.error (newError "topology closed") : Except JSVal Unit) = .error e ∧
            toStr e = .ok s ∧
            line = .logError [str ("MongoDB disconnect error: " ++ s)]) :=
  sigint_disconnects_then_exits (.error (newError "topology closed"))
    (startServer (.ok ())).events rfl
    (fun e he => by cases he; exact ⟨"Error: topology closed", rfl⟩)

/-! ## Claim on the update handlers -/

/-- C10: the code departs from the claim.  For each entity kind, whatever the model
operation does, the answer of the `PUT` handler does not depend on the request body: the
body is never handed to the model, so its fields are never applied. -/
theorem putHandler_ignores_body (kind : EntityKind) (findByIdAndUpdate : FindByIdAndUpdate)
    (params body₁ body₂ : JSVal) (res : Res) :
    putHandler kind findByIdAndUpdate ⟨params, body₁⟩ res =
        putHandler kind findByIdAndUpdate ⟨params, body₂⟩ res ∧
      putHandler kind findByIdAndUpdate ⟨params, body₁⟩ res =
        match findByIdAndUpdate params undefined with
        | .error error => (res.status 500).json error
        | .ok entity =>
          if !(truthy entity) then (res.status 404).json (str (notFoundText kind))
          else (res.status 200).json entity :=
  ⟨rfl, rfl⟩
